import Mathlib

/-!
Verification of the Taichi CI Dockerfile generator (ci/Dockerfile_generator.py).

The program composes Dockerfile text by concatenating fixed and parameterized
string blocks, selecting the block sequence by hardware kind (cpu/gpu), with
hard-coded install-block overrides for (ubuntu, 18.04, cpu) and
(ubuntu, 20.04, gpu), and writes one file per registered (os, version) pair.

The embedding below mirrors the source: the ALL_CAPS constants are the module
level template strings, transcribed verbatim (literal braces are written with
hex escapes); `str.format` on a literal template is embedded both as the
expanded concatenation (cpuBaseBlock, gpuBaseBlock, scriptsBlock) and as a
generic placeholder substitution over the template constants (formatKV /
formatChecked), the latter with the KeyError-style failure path made explicit
as an Option.
-/

set_option maxRecDepth 100000

namespace TaichiCI

/-- Number of occurrences of `pat` as a contiguous sublist of `s`
(all starting positions counted), one position at a time. -/
def occCountSmall (pat : List Char) : List Char → Nat
  | [] => if pat.isPrefixOf ([] : List Char) then 1 else 0
  | c :: rest => (if pat.isPrefixOf (c :: rest) then 1 else 0) + occCountSmall pat rest

/-- Number of occurrences of `pat` as a contiguous sublist of `s`, eight
positions per recursion step so that kernel reduction stays shallow on the
multi-kilobyte Dockerfile texts. -/
def occCount (pat : List Char) : List Char → Nat
  | a :: b :: c :: d :: e :: f :: g :: h :: rest =>
    ((((((((if pat.isPrefixOf (a :: b :: c :: d :: e :: f :: g :: h :: rest) then 1 else 0) +
      (if pat.isPrefixOf (b :: c :: d :: e :: f :: g :: h :: rest) then 1 else 0)) +
      (if pat.isPrefixOf (c :: d :: e :: f :: g :: h :: rest) then 1 else 0)) +
      (if pat.isPrefixOf (d :: e :: f :: g :: h :: rest) then 1 else 0)) +
      (if pat.isPrefixOf (e :: f :: g :: h :: rest) then 1 else 0)) +
      (if pat.isPrefixOf (f :: g :: h :: rest) then 1 else 0)) +
      (if pat.isPrefixOf (g :: h :: rest) then 1 else 0)) +
      (if pat.isPrefixOf (h :: rest) then 1 else 0)) +
      occCount pat rest
  | s => occCountSmall pat s

/-- Index of the first occurrence of `pat` as a contiguous sublist of `s`,
one position at a time. -/
def firstOccSmall (pat : List Char) : List Char → Option Nat
  | [] => if pat.isPrefixOf ([] : List Char) then some 0 else none
  | c :: rest =>
    if pat.isPrefixOf (c :: rest) then some 0
    else (firstOccSmall pat rest).map (· + 1)

/-- Index of the first occurrence of `pat` as a contiguous sublist of `s`,
eight positions per recursion step. -/
def firstOcc (pat : List Char) : List Char → Option Nat
  | a :: b :: c :: d :: e :: f :: g :: h :: rest =>
    if pat.isPrefixOf (a :: b :: c :: d :: e :: f :: g :: h :: rest) then some 0
    else if pat.isPrefixOf (b :: c :: d :: e :: f :: g :: h :: rest) then some 1
    else if pat.isPrefixOf (c :: d :: e :: f :: g :: h :: rest) then some 2
    else if pat.isPrefixOf (d :: e :: f :: g :: h :: rest) then some 3
    else if pat.isPrefixOf (e :: f :: g :: h :: rest) then some 4
    else if pat.isPrefixOf (f :: g :: h :: rest) then some 5
    else if pat.isPrefixOf (g :: h :: rest) then some 6
    else if pat.isPrefixOf (h :: rest) then some 7
    else (firstOcc pat rest).map (· + 8)
  | s => firstOccSmall pat s

/-- Whether `pat` occurs as a contiguous sublist of `s`, one position at a
time. -/
def infixOfSmall (pat : List Char) : List Char → Bool
  | [] => pat.isPrefixOf ([] : List Char)
  | c :: rest => pat.isPrefixOf (c :: rest) || infixOfSmall pat rest

/-- Whether `pat` occurs as a contiguous sublist of `s`, eight positions per
recursion step. -/
def infixOf (pat : List Char) : List Char → Bool
  | a :: b :: c :: d :: e :: f :: g :: h :: rest =>
    (((((((pat.isPrefixOf (a :: b :: c :: d :: e :: f :: g :: h :: rest) ||
      pat.isPrefixOf (b :: c :: d :: e :: f :: g :: h :: rest)) ||
      pat.isPrefixOf (c :: d :: e :: f :: g :: h :: rest)) ||
      pat.isPrefixOf (d :: e :: f :: g :: h :: rest)) ||
      pat.isPrefixOf (e :: f :: g :: h :: rest)) ||
      pat.isPrefixOf (f :: g :: h :: rest)) ||
      pat.isPrefixOf (g :: h :: rest)) ||
      pat.isPrefixOf (h :: rest)) ||
      infixOf pat rest
  | s => infixOfSmall pat s

def strOccCount (s pat : String) : Nat := occCount pat.data s.data

def strFirstOcc (s pat : String) : Option Nat := firstOcc pat.data s.data

def strContains (s pat : String) : Bool := infixOf pat.data s.data

def strStartsWith (s pfx : String) : Bool := pfx.data.isPrefixOf s.data

def strEndsWith (s sfx : String) : Bool := sfx.data.isSuffixOf s.data

/-- All positions present and strictly increasing. -/
def chainInc : List (Option Nat) → Bool
  | [] => true
  | [o] => o.isSome
  | o₁ :: o₂ :: rest =>
    match o₁, o₂ with
    | some a, some b => decide (a < b) && chainInc (o₂ :: rest)
    | _, _ => false

/-- Left-to-right single-pass replacement of `pat` by `rep`, fuelled by the
input length so that the recursion is structural (the fuel never runs out when
initialized to the input length, since each step consumes at least one input
character). -/
def substFuel (pat rep : List Char) : Nat → List Char → List Char
  | _, [] => []
  | 0, s => s
  | Nat.succ fuel, c :: rest =>
    if pat ≠ [] ∧ pat.isPrefixOf (c :: rest) then
      rep ++ substFuel pat rep fuel (List.drop (pat.length - 1) rest)
    else
      c :: substFuel pat rep fuel rest

def subst (pat rep s : List Char) : List Char := substFuel pat rep s.length s

/-- Python `tpl.format(k₁=v₁, ...)` on the templates of this program: replace
each `\x7bkᵢ\x7d` by `vᵢ`.  (Here no replacement value ever contains a brace,
so sequential substitution agrees with Python's single simultaneous pass.) -/
def formatKV (tpl : String) (args : List (String × String)) : String :=
  String.mk (args.foldl
    (fun acc kv => subst ("\x7b" ++ kv.1 ++ "\x7d").data kv.2.data acc) tpl.data)

/-- The named placeholders occurring in this program's templates. -/
def PLACEHOLDERS : List String := ["\x7bos\x7d", "\x7bversion\x7d", "\x7bscript\x7d"]

/-- `str.format` with its failure path made explicit: if a placeholder of this
program survives the substitution (the situation in which Python `format`
raises `KeyError` because the keyword for it was not supplied), the result is
`none`. -/
def formatChecked (tpl : String) (args : List (String × String)) : Option String :=
  let r := formatKV tpl args
  if PLACEHOLDERS.any (fun p => infixOf p.data r.data) then none else some r

/-- Python `str.rstrip()` (trailing whitespace removed; the blocks it is
applied to only end in newlines). -/
def rstrip (s : String) : String :=
  String.mk (s.data.reverse.dropWhile Char.isWhitespace).reverse

/-- The os → registered version list table (source lines 8-15). -/
def OS : List (String × List String) :=
  [("windows", []), ("macos", []), ("ubuntu", ["18.04", "20.04"])]

/-- The hardware choices (source line 16). -/
def HARDWARE : List String := ["cpu", "gpu"]

def osVersions (os : String) : List String :=
  match OS.lookup os with
  | some vs => vs
  | none => []

/-- All registered (os, version) pairs of the table. -/
def registeredPairs : List (String × String) :=
  OS.flatMap (fun e => e.2.map (fun v => (e.1, v)))

/-- Template constant, source lines 18-20. -/
def CPU_BASE_BLOCK : String :=
  "# Taichi Dockerfile for development\n" ++
  "FROM \x7bos\x7d:\x7bversion\x7d\n"

/-- Template constant, source lines 22-25. -/
def GPU_BASE_BLOCK : String :=
  "# Taichi Dockerfile for development\n" ++
  "FROM nvidia/cudagl:11.2.2-devel-ubuntu\x7bversion\x7d\n" ++
  "# Use 11.2 instead of 11.4 to avoid forward compatibility issue on Nvidia driver 460\n"

/-- Block constant, source lines 27-37. -/
def CPU_APT_INSTALL_BLOCK : String :=
  "\n" ++
  "RUN apt-get update && \\\n" ++
  "    apt-get install -y software-properties-common \\\n" ++
  "                       python3-pip \\\n" ++
  "                       libtinfo-dev \\\n" ++
  "                       clang-10 \\\n" ++
  "                       wget \\\n" ++
  "                       git \\\n" ++
  "                       unzip \\\n" ++
  "                       libx11-xcb-dev\n"

/-- Block constant, source lines 39-74. -/
def GPU_APT_INSTALL_BLOCK : String :=
  "\n" ++
  "RUN apt-get update && \\\n" ++
  "    apt-get install -y software-properties-common \\\n" ++
  "                       python3-pip \\\n" ++
  "                       libtinfo-dev \\\n" ++
  "                       clang-10 \\\n" ++
  "                       wget \\\n" ++
  "                       git \\\n" ++
  "                       unzip \\\n" ++
  "                       libxrandr-dev \\\n" ++
  "                       libxinerama-dev \\\n" ++
  "                       libxcursor-dev \\\n" ++
  "                       libxi-dev \\\n" ++
  "                       libglu1-mesa-dev \\\n" ++
  "                       freeglut3-dev \\\n" ++
  "                       mesa-common-dev \\\n" ++
  "                       libssl-dev \\\n" ++
  "                       libglm-dev \\\n" ++
  "                       libxcb-keysyms1-dev \\\n" ++
  "                       libxcb-dri3-dev \\\n" ++
  "                       libxcb-randr0-dev \\\n" ++
  "                       libxcb-ewmh-dev \\\n" ++
  "                       libpng-dev \\\n" ++
  "                       g++-multilib \\\n" ++
  "                       libmirclient-dev \\\n" ++
  "                       libwayland-dev \\\n" ++
  "                       bison \\\n" ++
  "                       libx11-xcb-dev \\\n" ++
  "                       liblz4-dev \\\n" ++
  "                       libzstd-dev \\\n" ++
  "                       qt5-default \\\n" ++
  "                       libglfw3 \\\n" ++
  "                       libglfw3-dev \\\n" ++
  "                       libjpeg-dev \\\n" ++
  "                       libvulkan-dev\n"

/-- Block constant, source lines 76-78. -/
def NVIDIA_DRIVER_CAPABILITIES_BLOCK : String :=
  "\n" ++
  "ENV NVIDIA_DRIVER_CAPABILITIES compute,graphics,utility\n"

/-- Block constant, source lines 80-83. -/
def MAINTAINER_BLOCK : String :=
  "\n" ++
  "ENV DEBIAN_FRONTEND=noninteractive\n" ++
  "LABEL maintainer=\"https://github.com/taichi-dev\"\n"

/-- Block constant, source lines 85-92. -/
def CMAKE_BLOCK : String :=
  "\n" ++
  "# Install the latest version of CMAKE v3.20.5 from source\n" ++
  "WORKDIR /\n" ++
  "RUN wget https://github.com/Kitware/CMake/releases/download/v3.20.5/cmake-3.20.5-linux-x86_64.tar.gz\n" ++
  "RUN tar xf cmake-3.20.5-linux-x86_64.tar.gz && \\\n" ++
  "    rm cmake-3.20.5-linux-x86_64.tar.gz\n" ++
  "ENV PATH=\"/cmake-3.20.5-linux-x86_64/bin:$PATH\"\n"

/-- Block constant, source lines 94-105. -/
def LLVM_BLOCK : String :=
  "\n" ++
  "# Intall LLVM 10\n" ++
  "WORKDIR /\n" ++
  "# Make sure this URL gets updated each time there is a new prebuilt bin release\n" ++
  "RUN wget https://github.com/taichi-dev/taichi_assets/releases/download/llvm10_linux_patch2/taichi-llvm-10.0.0-linux.zip\n" ++
  "RUN unzip taichi-llvm-10.0.0-linux.zip && \\\n" ++
  "    rm taichi-llvm-10.0.0-linux.zip\n" ++
  "ENV PATH=\"/taichi-llvm-10.0.0-linux/bin:$PATH\"\n" ++
  "# Use Clang as the default compiler\n" ++
  "ENV CC=\"clang-10\"\n" ++
  "ENV CXX=\"clang++-10\"\n"

/-- Block constant, source lines 107-112. -/
def USER_BLOCK : String :=
  "\n" ++
  "# Create non-root user for running the container\n" ++
  "RUN useradd -ms /bin/bash dev\n" ++
  "WORKDIR /home/dev\n" ++
  "USER dev\n"

/-- Block constant, source lines 114-130. -/
def VULKAN_BLOCK : String :=
  "\n" ++
  "# Setting up Vulkan SDK\n" ++
  "# References\n" ++
  "# [1] https://github.com/edowson/docker-nvidia-vulkan\n" ++
  "# [2] https://gitlab.com/nvidia/container-images/vulkan/-/tree/master/docker\n" ++
  "WORKDIR /vulkan\n" ++
  "RUN wget https://sdk.lunarg.com/sdk/download/1.2.189.0/linux/vulkansdk-linux-x86_64-1.2.189.0.tar.gz\n" ++
  "RUN tar xf vulkansdk-linux-x86_64-1.2.189.0.tar.gz && \\\n" ++
  "    rm vulkansdk-linux-x86_64-1.2.189.0.tar.gz\n" ++
  "# Locate Vulkan components\n" ++
  "ENV VULKAN_SDK=\"/vulkan/1.2.189.0/x86_64\"\n" ++
  "ENV PATH=\"$VULKAN_SDK/bin:$PATH\"\n" ++
  "ENV LD_LIBRARY_PATH=\"$VULKAN_SDK/lib$\x7bLD_LIBRARY_PATH:+:$LD_LIBRARY_PATH\x7d\"\n" ++
  "ENV VK_LAYER_PATH=\"$VULKAN_SDK/etc/vulkan/explicit_layer.d\"\n" ++
  "WORKDIR /usr/share/vulkan/icd.d\n" ++
  "COPY ci/vulkan/icd.d/nvidia_icd.json nvidia_icd.json\n"

/-- Block constant, source lines 132-144. -/
def CONDA_BLOCK : String :=
  "\n" ++
  "# Install miniconda\n" ++
  "RUN wget https://repo.anaconda.com/miniconda/Miniconda3-latest-Linux-x86_64.sh && \\\n" ++
  "    bash Miniconda3-latest-Linux-x86_64.sh -p /home/dev/miniconda -b\n" ++
  "ENV PATH=\"/home/dev/miniconda/bin:$PATH\"\n" ++
  "\n" ++
  "# Set up multi-python environment\n" ++
  "RUN conda init bash\n" ++
  "RUN conda create -n py36 python=3.6 -y\n" ++
  "RUN conda create -n py37 python=3.7 -y\n" ++
  "RUN conda create -n py38 python=3.8 -y\n" ++
  "RUN conda create -n py39 python=3.9 -y\n"

/-- Template constant, source lines 146-153. -/
def SCRIPTS_BLOCK : String :=
  "\n" ++
  "# Load scripts for build and test\n" ++
  "WORKDIR /home/dev/scripts\n" ++
  "COPY ci/scripts/\x7bscript\x7d \x7bscript\x7d\n" ++
  "\n" ++
  "WORKDIR /home/dev\n" ++
  "ENV LANG=\"C.UTF-8\"\n"

/-- `CPU_BASE_BLOCK.format(os=os, version=version)` (source line 238),
expanded over the literal template. -/
def cpuBaseBlock (os version : String) : String :=
  "# Taichi Dockerfile for development\nFROM " ++ os ++ ":" ++ version ++ "\n"

/-- `GPU_BASE_BLOCK.format(version=version)` (source line 261), expanded over
the literal template; the os argument plays no part. -/
def gpuBaseBlock (version : String) : String :=
  "# Taichi Dockerfile for development\nFROM nvidia/cudagl:11.2.2-devel-ubuntu" ++
  version ++
  "\n# Use 11.2 instead of 11.4 to avoid forward compatibility issue on Nvidia driver 460\n"

/-- `SCRIPTS_BLOCK.format(script=script)` (source lines 239-240, 262),
expanded over the literal template. -/
def scriptsBlock (script : String) : String :=
  "\n# Load scripts for build and test\nWORKDIR /home/dev/scripts\nCOPY ci/scripts/" ++
  script ++ " " ++ script ++
  "\n\nWORKDIR /home/dev\nENV LANG=\"C.UTF-8\"\n"

/-- Cpu install block with the (ubuntu, 18.04) override (source lines 241-246). -/
def cpuInstallBlock (os version : String) : String :=
  if os = "ubuntu" ∧ version = "18.04" then
    rstrip CPU_APT_INSTALL_BLOCK ++ " \\\n                       zlib1g-dev"
  else
    CPU_APT_INSTALL_BLOCK

/-- Gpu install block with the (ubuntu, 20.04) override (source lines 263-269). -/
def gpuInstallBlock (os version : String) : String :=
  if os = "ubuntu" ∧ version = "20.04" then
    rstrip GPU_APT_INSTALL_BLOCK ++
      " \\\n                       vulkan-tools \\\n                       vulkan-validationlayers-dev"
  else
    GPU_APT_INSTALL_BLOCK

/-- The cpu Dockerfile text: the reduce over the cpu block tuple
(source lines 248-251). -/
def cpuDockerfile (os version : String) : String :=
  cpuBaseBlock os version ++ MAINTAINER_BLOCK ++ cpuInstallBlock os version ++
  CMAKE_BLOCK ++ LLVM_BLOCK ++ USER_BLOCK ++ CONDA_BLOCK ++
  scriptsBlock (os ++ "_build_test_cpu.sh")

/-- The gpu Dockerfile text: the reduce over the gpu block tuple
(source lines 271-275). -/
def gpuDockerfile (os version : String) : String :=
  gpuBaseBlock version ++ NVIDIA_DRIVER_CAPABILITIES_BLOCK ++ MAINTAINER_BLOCK ++
  gpuInstallBlock os version ++ CMAKE_BLOCK ++ LLVM_BLOCK ++ VULKAN_BLOCK ++
  USER_BLOCK ++ CONDA_BLOCK ++ scriptsBlock (os ++ "_build_test.sh")

/-- Which composer runs: the `if args.target == "cpu" ... else ...` dispatch
(source lines 233, 256). -/
def dockerfileFor (os version hw : String) : String :=
  if hw = "cpu" then cpuDockerfile os version else gpuDockerfile os version

def baseBlockFor (os version hw : String) : String :=
  if hw = "cpu" then cpuBaseBlock os version else gpuBaseBlock version

def installBlockFor (os version hw : String) : String :=
  if hw = "cpu" then cpuInstallBlock os version else gpuInstallBlock os version

def scriptsBlockFor (os hw : String) : String :=
  if hw = "cpu" then scriptsBlock (os ++ "_build_test_cpu.sh")
  else scriptsBlock (os ++ "_build_test.sh")

/-- Destination filename for cpu targets (source line 252). -/
def cpuFilename (os version : String) : String :=
  "Dockerfile." ++ os ++ "." ++ version ++ ".cpu"

/-- Destination filename for gpu targets (source line 276). -/
def gpuFilename (os version : String) : String :=
  "Dockerfile." ++ os ++ "." ++ version

def filenameFor (os version hw : String) : String :=
  if hw = "cpu" then cpuFilename os version else gpuFilename os version

/-- The (filename, contents) pairs produced by one run:
`list(map(functools.partial(f, args.os), OS[args.os]))` (source line 281). -/
def generatedFiles (os hw : String) : List (String × String) :=
  (osVersions os).map (fun v => (filenameFor os v hw, dockerfileFor os v hw))

/-- One full run of `main`: argparse rejects an os or hardware outside the
registered choices (`none`); otherwise all files are generated and the final
success message is reported (source lines 281-282). -/
def mainRun (os hw : String) : Option (List (String × String) × String) :=
  if (OS.lookup os).isSome && HARDWARE.contains hw then
    some (generatedFiles os hw, "Dockerfile generation is complete.")
  else
    none

/-- Checked cpu composer: identical block sequence, but the two `str.format`
calls go through the Option-valued `formatChecked` over the verbatim template
constants, exposing the (never taken) formatting failure path. -/
def composeCpuChecked (os version : String) : Option String := do
  let base ← formatChecked CPU_BASE_BLOCK [("os", os), ("version", version)]
  let scripts ← formatChecked SCRIPTS_BLOCK [("script", os ++ "_build_test_cpu.sh")]
  some (base ++ MAINTAINER_BLOCK ++ cpuInstallBlock os version ++ CMAKE_BLOCK ++
    LLVM_BLOCK ++ USER_BLOCK ++ CONDA_BLOCK ++ scripts)

/-- Checked gpu composer, as `composeCpuChecked`. -/
def composeGpuChecked (os version : String) : Option String := do
  let base ← formatChecked GPU_BASE_BLOCK [("version", version)]
  let scripts ← formatChecked SCRIPTS_BLOCK [("script", os ++ "_build_test.sh")]
  some (base ++ NVIDIA_DRIVER_CAPABILITIES_BLOCK ++ MAINTAINER_BLOCK ++
    gpuInstallBlock os version ++ CMAKE_BLOCK ++ LLVM_BLOCK ++ VULKAN_BLOCK ++
    USER_BLOCK ++ CONDA_BLOCK ++ scripts)

def composeChecked (os version hw : String) : Option String :=
  if hw = "cpu" then composeCpuChecked os version else composeGpuChecked os version

/-- The AvailableColors enum (source lines 164-173). -/
def availableColors : List (String × Nat) :=
  [("GRAY", 90), ("RED", 91), ("GREEN", 92), ("YELLOW", 93), ("BLUE", 94),
   ("PURPLE", 95), ("WHITE", 97), ("BLACK", 30), ("DEFAULT", 39)]

/-- The color lookup of `_apply_color`: start from DEFAULT (39), overwrite on
a successful lookup of the upper-cased name, swallow the KeyError otherwise
(source lines 178-182). -/
def colorCode (color : String) : Nat :=
  match availableColors.lookup color.toUpper with
  | some c => c
  | none => 39

/-- `_apply_color` (source lines 176-183). -/
def applyColor (color message : String) : String :=
  "\x1b[1;" ++ toString (colorCode color) ++ "m" ++ message ++ "\x1b[0m"

/-- The packages of CPU_APT_INSTALL_BLOCK, in order. -/
def cpuBasePackages : List String :=
  ["software-properties-common", "python3-pip", "libtinfo-dev", "clang-10",
   "wget", "git", "unzip", "libx11-xcb-dev"]

/-- The packages of GPU_APT_INSTALL_BLOCK, in order. -/
def gpuBasePackages : List String :=
  ["software-properties-common", "python3-pip", "libtinfo-dev", "clang-10",
   "wget", "git", "unzip", "libxrandr-dev", "libxinerama-dev", "libxcursor-dev",
   "libxi-dev", "libglu1-mesa-dev", "freeglut3-dev", "mesa-common-dev",
   "libssl-dev", "libglm-dev", "libxcb-keysyms1-dev", "libxcb-dri3-dev",
   "libxcb-randr0-dev", "libxcb-ewmh-dev", "libpng-dev", "g++-multilib",
   "libmirclient-dev", "libwayland-dev", "bison", "libx11-xcb-dev",
   "liblz4-dev", "libzstd-dev", "qt5-default", "libglfw3", "libglfw3-dev",
   "libjpeg-dev", "libvulkan-dev"]

/-- First-occurrence positions of the given blocks inside a text. -/
def blockPositions (text : String) (blocks : List String) : List (Option Nat) :=
  blocks.map (fun b => strFirstOcc text b)

end TaichiCI

namespace TaichiCI

/-- The registered pair list evaluates to the two ubuntu pairs. -/
theorem registeredPairs_eq :
    registeredPairs = [("ubuntu", "18.04"), ("ubuntu", "20.04")] := rfl

/-- Enumerating membership in the registered pair list. -/
theorem mem_registeredPairs {p : String × String} (hp : p ∈ registeredPairs) :
    p = ("ubuntu", "18.04") ∨ p = ("ubuntu", "20.04") := by
  rw [registeredPairs_eq] at hp
  simpa using hp

/-- Enumerating membership in the hardware list. -/
theorem mem_hardware {hw : String} (h : hw ∈ HARDWARE) :
    hw = "cpu" ∨ hw = "gpu" := by
  simpa [HARDWARE] using h

/-- C1: for every registered (os, version) pair generated under hardware=cpu,
the produced Dockerfile text contains exactly one occurrence of the cpu base
image block with that os and version substituted, and the text ends with the
script-loader block whose script placeholder is filled with
`os`_build_test_cpu.sh. -/
theorem c1_cpu_base_once_and_scripts_tail :
    ∀ p ∈ registeredPairs,
      strOccCount (cpuDockerfile p.1 p.2) (cpuBaseBlock p.1 p.2) = 1 ∧
      strEndsWith (cpuDockerfile p.1 p.2) (scriptsBlock (p.1 ++ "_build_test_cpu.sh")) = true := by
  decide

/-- Witness for C1 at (ubuntu, 18.04). -/
theorem c1_witness :
    ("ubuntu", "18.04") ∈ registeredPairs ∧
    (strOccCount (cpuDockerfile "ubuntu" "18.04") (cpuBaseBlock "ubuntu" "18.04") = 1 ∧
     strEndsWith (cpuDockerfile "ubuntu" "18.04")
       (scriptsBlock ("ubuntu" ++ "_build_test_cpu.sh")) = true) :=
  ⟨by decide, c1_cpu_base_once_and_scripts_tail ("ubuntu", "18.04") (by decide)⟩

/-- C2, counterexample: the text generated for (ubuntu, 18.04, cpu) does not
begin with `FROM ubuntu:18.04`; it begins with the comment line of the base
block. -/
theorem c2_counterexample :
    ¬ strStartsWith (cpuDockerfile "ubuntu" "18.04") "FROM ubuntu:18.04" = true := by
  decide

/-- C2 (amended): the text for (ubuntu, 18.04, cpu) begins with the base
block, whose second line is `FROM ubuntu:18.04`, and its install section
contains every package of the base cpu package list plus the literal package
zlib1g-dev. -/
theorem c2_amended_ubuntu1804_cpu :
    strStartsWith (cpuDockerfile "ubuntu" "18.04")
        "# Taichi Dockerfile for development\nFROM ubuntu:18.04\n" = true ∧
    (cpuBasePackages ++ ["zlib1g-dev"]).all
        (fun pkg => strContains (cpuInstallBlock "ubuntu" "18.04") pkg) = true := by
  decide

/-- C3: for (ubuntu, 20.04, gpu) the install section contains every package of
the base gpu package list plus vulkan-tools and vulkan-validationlayers-dev,
and for every other registered gpu combination the install block is the
unmodified base gpu install block (no override applied). -/
theorem c3_gpu_vulkan_override :
    (gpuBasePackages ++ ["vulkan-tools", "vulkan-validationlayers-dev"]).all
        (fun pkg => strContains (gpuInstallBlock "ubuntu" "20.04") pkg) = true ∧
    ∀ p ∈ registeredPairs, p ≠ ("ubuntu", "20.04") →
      gpuInstallBlock p.1 p.2 = GPU_APT_INSTALL_BLOCK := by
  refine ⟨by decide, ?_⟩
  intro p hp hne
  rcases mem_registeredPairs hp with rfl | rfl
  · rfl
  · exact absurd rfl hne

/-- Witness for C3 at (ubuntu, 18.04). -/
theorem c3_witness :
    ("ubuntu", "18.04") ∈ registeredPairs ∧
    ("ubuntu", "18.04") ≠ (("ubuntu", "20.04") : String × String) ∧
    gpuInstallBlock "ubuntu" "18.04" = GPU_APT_INSTALL_BLOCK :=
  ⟨by decide, by decide,
   c3_gpu_vulkan_override.2 ("ubuntu", "18.04") (by decide) (by decide)⟩

/-- C4: for every os and version, the gpu text starts with the Nvidia CUDA
base image block formatted with only the version
(`FROM nvidia/cudagl:11.2.2-devel-ubuntu` followed by the version),
independent of which os value was passed. -/
theorem c4_gpu_base_ignores_os :
    ∀ (os version : String), ∃ rest,
      gpuDockerfile os version =
        ("# Taichi Dockerfile for development\nFROM nvidia/cudagl:11.2.2-devel-ubuntu" ++
          version ++
          "\n# Use 11.2 instead of 11.4 to avoid forward compatibility issue on Nvidia driver 460\n") ++
        rest := by
  intro os version
  refine ⟨NVIDIA_DRIVER_CAPABILITIES_BLOCK ++ (MAINTAINER_BLOCK ++
    (gpuInstallBlock os version ++ (CMAKE_BLOCK ++ (LLVM_BLOCK ++ (VULKAN_BLOCK ++
    (USER_BLOCK ++ (CONDA_BLOCK ++ scriptsBlock (os ++ "_build_test.sh")))))))), ?_⟩
  simp only [gpuDockerfile, gpuBaseBlock, String.append_assoc]

/-- C5: in every generated Dockerfile, the first-occurrence positions of the
base block, the install block, the CMake block, the LLVM block, the non-root
user-setup block and the script-loader block are strictly increasing in that
order. -/
theorem c5_block_order :
    ∀ p ∈ registeredPairs, ∀ hw ∈ HARDWARE,
      chainInc (blockPositions (dockerfileFor p.1 p.2 hw)
        [baseBlockFor p.1 p.2 hw, installBlockFor p.1 p.2 hw, CMAKE_BLOCK,
         LLVM_BLOCK, USER_BLOCK, scriptsBlockFor p.1 hw]) = true := by
  decide

/-- Witness for C5 at (ubuntu, 18.04, cpu). -/
theorem c5_witness :
    ("ubuntu", "18.04") ∈ registeredPairs ∧ "cpu" ∈ HARDWARE ∧
    chainInc (blockPositions (dockerfileFor "ubuntu" "18.04" "cpu")
      [baseBlockFor "ubuntu" "18.04" "cpu", installBlockFor "ubuntu" "18.04" "cpu",
       CMAKE_BLOCK, LLVM_BLOCK, USER_BLOCK, scriptsBlockFor "ubuntu" "cpu"]) = true :=
  ⟨by decide, by decide,
   c5_block_order ("ubuntu", "18.04") (by decide) "cpu" (by decide)⟩

/-- C6: generating (ubuntu, 18.04, cpu) twice yields byte-identical text (the
composer is a pure function of its target, so repeated generation cannot
differ), and the override package zlib1g-dev occurs exactly once in that
text. -/
theorem c6_idempotent_zlib_once :
    cpuDockerfile "ubuntu" "18.04" = cpuDockerfile "ubuntu" "18.04" ∧
    strOccCount (cpuDockerfile "ubuntu" "18.04") "zlib1g-dev" = 1 :=
  ⟨rfl, by decide⟩

/-- C7: for every registered (os, version) pair the cpu destination filename
is Dockerfile.os.version.cpu and the gpu one Dockerfile.os.version; hence
every cpu filename ends in .cpu and no gpu filename does. -/
theorem c7_filenames :
    ∀ p ∈ registeredPairs,
      cpuFilename p.1 p.2 = "Dockerfile." ++ p.1 ++ "." ++ p.2 ++ ".cpu" ∧
      gpuFilename p.1 p.2 = "Dockerfile." ++ p.1 ++ "." ++ p.2 ∧
      strEndsWith (cpuFilename p.1 p.2) ".cpu" = true ∧
      strEndsWith (gpuFilename p.1 p.2) ".cpu" = false := by
  decide

/-- Witness for C7 at (ubuntu, 18.04). -/
theorem c7_witness :
    ("ubuntu", "18.04") ∈ registeredPairs ∧
    (cpuFilename "ubuntu" "18.04" = "Dockerfile." ++ "ubuntu" ++ "." ++ "18.04" ++ ".cpu" ∧
     gpuFilename "ubuntu" "18.04" = "Dockerfile." ++ "ubuntu" ++ "." ++ "18.04" ∧
     strEndsWith (cpuFilename "ubuntu" "18.04") ".cpu" = true ∧
     strEndsWith (gpuFilename "ubuntu" "18.04") ".cpu" = false) :=
  ⟨by decide, c7_filenames ("ubuntu", "18.04") (by decide)⟩

/-- C8: for every color string and message, the color-applying function
returns a colorized string and never fails; when the upper-cased color name is
not among the registered colors, the default color code 39 is used. -/
theorem c8_apply_color_total_fallback :
    ∀ (color message : String), ∃ code : Nat,
      applyColor color message =
        "\x1b[1;" ++ toString code ++ "m" ++ message ++ "\x1b[0m" ∧
      (availableColors.lookup color.toUpper = none → code = 39) := by
  intro color message
  refine ⟨colorCode color, rfl, fun h => ?_⟩
  simp [colorCode, h]

/-- Witness for C8 at the unregistered color name magenta. -/
theorem c8_witness :
    ∃ code : Nat,
      applyColor "magenta" "hi" =
        "\x1b[1;" ++ toString code ++ "m" ++ "hi" ++ "\x1b[0m" ∧
      (availableColors.lookup ("magenta".toUpper) = none → code = 39) :=
  c8_apply_color_total_fallback "magenta" "hi"

/-- C9: for every registered os, version and hardware, composing the
Dockerfile through the checked formatter (which makes the placeholder
formatting failure explicit as `none`) succeeds and returns exactly the
deterministic composed text. -/
theorem c9_composer_total :
    ∀ p ∈ registeredPairs, ∀ hw ∈ HARDWARE,
      composeChecked p.1 p.2 hw = some (dockerfileFor p.1 p.2 hw) := by
  intro p hp hw hhw
  rcases mem_registeredPairs hp with rfl | rfl <;>
    rcases mem_hardware hhw with rfl | rfl <;> rfl

/-- Witness for C9 at (ubuntu, 18.04, cpu). -/
theorem c9_witness :
    ("ubuntu", "18.04") ∈ registeredPairs ∧ "cpu" ∈ HARDWARE ∧
    composeChecked "ubuntu" "18.04" "cpu" = some (dockerfileFor "ubuntu" "18.04" "cpu") :=
  ⟨by decide, by decide,
   c9_composer_total ("ubuntu", "18.04") (by decide) "cpu" (by decide)⟩

/-- C10: for an os whose registered version list is empty (windows or macos),
a run with either hardware choice generates zero Dockerfiles and still
completes normally, reporting success. -/
theorem c10_empty_version_list :
    mainRun "windows" "cpu" = some ([], "Dockerfile generation is complete.") ∧
    mainRun "windows" "gpu" = some ([], "Dockerfile generation is complete.") ∧
    mainRun "macos" "cpu" = some ([], "Dockerfile generation is complete.") ∧
    mainRun "macos" "gpu" = some ([], "Dockerfile generation is complete.") :=
  ⟨rfl, rfl, rfl, rfl⟩

end TaichiCI
